import Mathlib

/-!
Verification development for the image-embedding task assembler of the
lightning-flash repository (src/flash/image/embedding/model.py), together
with the registry and adapter interfaces it relies on.

Conventions of the embedding:
* Runtime objects produced by factories (backbones, heads, loss functions,
  hooks, transforms, collate functions, optimizer specifications) are
  represented by the opaque value type `Val`.
* Python exceptions are represented by the `FlashError` type; fallible
  operations return `Except FlashError _`.  A factory registered in a
  registry may itself fail, modelling an exception raised by the callable.
* The registry (`FlashRegistry`), the adapter base and the generic task
  base (`AdapterTask.__init__`) are not part of the source tree; they are
  modelled from the specification where noted.
-/

namespace Flash

/-- Opaque runtime value standing for Python objects that this layer never
inspects (backbones, heads, hooks, transforms, collate functions, ...). -/
inductive Val where
  | str : String → Val
  | nat : Nat → Val
  | pair : Val → Val → Val
  | vnone : Val
deriving DecidableEq, Repr

/-- Keyword-argument dictionaries passed through to factories. -/
abbrev Kwargs : Type := List (String × Val)

/-- Data keys of a batch, from flash.core.data.data_source.DefaultDataKeys. -/
inductive DataKey where
  | input
  | target
  | preds
  | metadata
deriving DecidableEq, Repr

/-- ApplyToKeys from flash.core.data.transforms: a transform wrapper that
applies the wrapped transform to the given keys of a sample. -/
structure ApplyToKeysV where
  keys : List DataKey
  transform : Val
deriving DecidableEq, Repr

/-- Errors surfaced by construction: a missing registry key (Python
KeyError, a LookupError subclass), a TypeError from argument unpacking, or
an arbitrary error raised inside an invoked factory. -/
inductive FlashError where
  | keyError (registry : String) (key : String)
  | typeError (msg : String)
  | factoryError (msg : String)
deriving DecidableEq, Repr

/-- Process states settable on an adapter, from flash.core.data.states:
CollateFn, ToTensorTransform, PreTensorTransform, PostTensorTransform.
Each state object carries an optional payload. -/
inductive ProcessState where
  | collateFn (v : Option Val)
  | toTensorTransform (v : Option ApplyToKeysV)
  | preTensorTransform (v : Option Val)
  | postTensorTransform (v : Option Val)
deriving DecidableEq, Repr

/-- The named state slots of an adapter: a slot is `none` while the state
was never set, and `some p` once `set_state` stored a state with payload
`p`. -/
structure AdapterStates where
  collate_fn : Option (Option Val)
  to_tensor_transform : Option (Option ApplyToKeysV)
  pre_tensor_transform : Option (Option Val)
  post_tensor_transform : Option (Option Val)
deriving DecidableEq, Repr

/-- Record of lifecycle calls forwarded to the adapter: how often
on_train_start and on_train_epoch_end were invoked, and the exact argument
tuples of every on_train_batch_end invocation, in order. -/
structure BatchEndArgs where
  outputs : Val
  batch : Val
  batch_idx : Nat
  dataloader_idx : Nat
deriving DecidableEq, Repr

structure CallLog where
  train_start : Nat
  train_epoch_end : Nat
  train_batch_end : List BatchEndArgs
deriving DecidableEq, Repr

/-- Modelled from the spec: the adapter abstraction (flash.core.adapter,
not under src/).  An adapter owns the constructed backbone, loss function,
head and training hooks, remembers which adapter class it is an instance
of and which task it was bound to, and carries named process states plus a
log of the lifecycle calls forwarded to it. -/
structure Adapter where
  cls : String
  task : Nat
  loss_fn : Val
  backbone : Val
  head : Val
  hooks : Val
  states : AdapterStates
  callLog : CallLog
deriving DecidableEq, Repr

/-- Modelled from the spec: Adapter.from_task constructs an adapter of the
class named in the strategy metadata, bound to the task and to the loss
function, backbone, head and hooks; its state slots start from the
pre-existing process state of the surrounding context. -/
def Adapter.from_task (cls : String) (taskId : Nat)
    (loss_fn backbone head hooks : Val) (initStates : AdapterStates) :
    Adapter :=
  { cls := cls, task := taskId, loss_fn := loss_fn, backbone := backbone,
    head := head, hooks := hooks, states := initStates,
    callLog := ⟨0, 0, []⟩ }

/-- Modelled from the spec: set_state installs a named state on the
adapter, overwriting the corresponding slot. -/
def Adapter.set_state (a : Adapter) (s : ProcessState) : Adapter :=
  match s with
  | .collateFn v =>
      { a with states := { a.states with collate_fn := some v } }
  | .toTensorTransform v =>
      { a with states := { a.states with to_tensor_transform := some v } }
  | .preTensorTransform v =>
      { a with states := { a.states with pre_tensor_transform := some v } }
  | .postTensorTransform v =>
      { a with states := { a.states with post_tensor_transform := some v } }

/-- Modelled from the spec: the adapter records each forwarded
on_train_start call. -/
def Adapter.on_train_start (a : Adapter) : Adapter :=
  { a with callLog :=
      { a.callLog with train_start := a.callLog.train_start + 1 } }

/-- Modelled from the spec: the adapter records each forwarded
on_train_epoch_end call. -/
def Adapter.on_train_epoch_end (a : Adapter) : Adapter :=
  { a with callLog :=
      { a.callLog with train_epoch_end := a.callLog.train_epoch_end + 1 } }

/-- Modelled from the spec: the adapter records each forwarded
on_train_batch_end call together with its arguments. -/
def Adapter.on_train_batch_end (a : Adapter)
    (outputs batch : Val) (batch_idx dataloader_idx : Nat) : Adapter :=
  { a with callLog :=
      { a.callLog with train_batch_end :=
          a.callLog.train_batch_end ++
            [⟨outputs, batch, batch_idx, dataloader_idx⟩] } }

/-- Factory stored in the backbone registry: called with the pretrained
flag and keyword arguments, returns a pair whose second component is
discarded by the assembler, or raises. -/
def BackboneFactory : Type := Bool → Kwargs → Except FlashError (Val × Val)

/-- Factory stored in the training-strategy registry: called with the head
name and keyword arguments, returns (loss function, head, hooks), or
raises. -/
def StrategyFactory : Type :=
  String → Kwargs → Except FlashError (Val × Val × Val)

/-- Factory stored in the transform registry: called with keyword
arguments, returns (transform, collate function), or raises. -/
def TransformFactory : Type := Kwargs → Except FlashError (Val × Val)

/-- Metadata of a training-strategy registry entry: names the adapter
class to instantiate. -/
structure StrategyMeta where
  adapter : String
deriving DecidableEq, Repr

/-- Modelled from the spec: one registry entry, a unique key with its
factory and metadata. -/
structure RegistryEntry (φ μ : Type) where
  name : String
  fn : φ
  metadata : μ

/-- Modelled from the spec: FlashRegistry (flash.core.registry, not under
src/), a named string-keyed factory lookup table. -/
structure FlashRegistry (φ μ : Type) where
  name : String
  functions : List (RegistryEntry φ μ)

/-- Modelled from the spec: the keys currently registered, in insertion
order. -/
def FlashRegistry.available_keys (r : FlashRegistry φ μ) : List String :=
  r.functions.map (fun e => e.name)

/-- Modelled from the spec: lookup by key; an absent key fails with the
LookupError-kind KeyError naming the registry and the key. -/
def FlashRegistry.get (r : FlashRegistry φ μ) (key : String) :
    Except FlashError (RegistryEntry φ μ) :=
  match r.functions.find? (fun e => e.name == key) with
  | some e => .ok e
  | none => .error (.keyError r.name key)

/-- Modelled from the spec: registration keeps keys unique, so a key that
is already present has its entry replaced in place, and a new key is
appended. -/
def FlashRegistry.register (r : FlashRegistry φ μ) (name : String)
    (fn : φ) (md : μ) : FlashRegistry φ μ :=
  if r.functions.any (fun e => e.name == name) then
    { r with functions :=
        r.functions.map fun e =>
          if e.name == name then ⟨name, fn, md⟩ else e }
  else
    { r with functions := r.functions ++ [⟨name, fn, md⟩] }

/-- Modelled from the spec: a registry with no entries. -/
def FlashRegistry.empty (nm : String) : FlashRegistry φ μ := ⟨nm, []⟩

/-- The constructor arguments of ImageEmbedder, with the defaults of
src/flash/image/embedding/model.py.  The optimizer, scheduler and
learning-rate values are opaque (only stored, never inspected). -/
structure ConstructArgs where
  training_strategy : String
  head : String
  pretraining_transform : String
  backbone : String := "resnet"
  pretrained : Bool := false
  optimizer : Val := .str "torch.optim.SGD"
  optimizer_kwargs : Option Kwargs := none
  scheduler : Option Val := none
  scheduler_kwargs : Option Kwargs := none
  learning_rate : Val := .str "1e-3"
  backbone_kwargs : Option Kwargs := none
  training_strategy_kwargs : Option Kwargs := none
  pretraining_transform_kwargs : Option Kwargs := none
deriving DecidableEq

/-- The ImageEmbedder task.  Its generic base (AdapterTask, not under
src/) is modelled from the spec as holding the adapter and the
optimizer/scheduler configuration; save_hyperparameters is modelled by
the hparams field, recorded before any name is rebound. -/
structure ImageEmbedder where
  id : Nat
  hparams : ConstructArgs
  adapter : Adapter
  optimizer : Val
  optimizer_kwargs : Option Kwargs
  scheduler : Option Val
  scheduler_kwargs : Option Kwargs
  learning_rate : Val
deriving DecidableEq

/-- Environment of a construction: the three class-level registries, the
identity the new task object will have, the pre-existing process state
the fresh adapter starts from, and the transform the user may have
configured beforehand (which the constructor never reads). -/
structure Env where
  backbones : FlashRegistry BackboneFactory Unit
  training_strategies : FlashRegistry StrategyFactory StrategyMeta
  transforms : FlashRegistry TransformFactory Unit
  selfId : Nat
  initStates : AdapterStates
  user_transform : Option Val

instance {ε α : Type} [DecidableEq ε] [DecidableEq α] :
    DecidableEq (Except ε α) := fun x y =>
  match x, y with
  | .ok a, .ok b =>
      if h : a = b then .isTrue (h ▸ rfl)
      else .isFalse fun hc => h (Except.ok.inj hc)
  | .error a, .error b =>
      if h : a = b then .isTrue (h ▸ rfl)
      else .isFalse fun hc => h (Except.error.inj hc)
  | .ok _, .error _ => .isFalse fun hc => Except.noConfusion hc
  | .error _, .ok _ => .isFalse fun hc => Except.noConfusion hc

/-- The outcome of running ImageEmbedder.__init__: the task or the raised
error, together with the warnings emitted and the number of adapter
instantiations performed during the call. -/
structure ConstructOutcome where
  result : Except FlashError ImageEmbedder
  warnings_emitted : List String
  adapter_instantiations : Nat
deriving DecidableEq

/-- The transform-override warning message of ImageEmbedder.__init__. -/
def overrideWarning : String :=
  "Warning: VISSL ImageEmbedder overrides any user provided transforms" ++
    " with pre-defined transforms for the training strategy."

/-- ImageEmbedder.__init__ from src/flash/image/embedding/model.py,
step by step: save_hyperparameters; default backbone_kwargs and
training_strategy_kwargs to empty when None; resolve and call the
backbone factory, discarding the second component; resolve the strategy
entry with metadata and call its factory with the head name; instantiate
the adapter class named by the strategy metadata via from_task, bound to
the task and the produced loss function, backbone, head and hooks;
initialize the task base with the adapter and the optimizer/scheduler
configuration; resolve and call the transform factory (unpacking
pretraining_transform_kwargs, which is NOT defaulted when None and then
raises a TypeError); install the collate function and the
ApplyToKeys-wrapped transform as states and clear the post- and
pre-tensor transform states; finally emit the override warning. -/
def ImageEmbedder.construct (env : Env) (args : ConstructArgs) :
    ConstructOutcome :=
  let backbone_kwargs := args.backbone_kwargs.getD []
  let training_strategy_kwargs := args.training_strategy_kwargs.getD []
  match env.backbones.get args.backbone with
  | .error e => ⟨.error e, [], 0⟩
  | .ok bentry =>
    match bentry.fn args.pretrained backbone_kwargs with
    | .error e => ⟨.error e, [], 0⟩
    | .ok (backbone, _) =>
      match env.training_strategies.get args.training_strategy with
      | .error e => ⟨.error e, [], 0⟩
      | .ok sentry =>
        match sentry.fn args.head training_strategy_kwargs with
        | .error e => ⟨.error e, [], 0⟩
        | .ok (loss_fn, head, hooks) =>
          let adapter := Adapter.from_task sentry.metadata.adapter
            env.selfId loss_fn backbone head hooks env.initStates
          match env.transforms.get args.pretraining_transform with
          | .error e => ⟨.error e, [], 1⟩
          | .ok tentry =>
            match args.pretraining_transform_kwargs with
            | none =>
              ⟨.error (.typeError
                "argument after ** must be a mapping, not NoneType"),
               [], 1⟩
            | some tk =>
              match tentry.fn tk with
              | .error e => ⟨.error e, [], 1⟩
              | .ok (transform, collate_fn) =>
                let to_tensor_transform : ApplyToKeysV :=
                  ⟨[DataKey.input], transform⟩
                let adapter := adapter.set_state
                  (.collateFn (some collate_fn))
                let adapter := adapter.set_state
                  (.toTensorTransform (some to_tensor_transform))
                let adapter := adapter.set_state (.postTensorTransform none)
                let adapter := adapter.set_state (.preTensorTransform none)
                ⟨.ok
                  { id := env.selfId, hparams := args, adapter := adapter,
                    optimizer := args.optimizer,
                    optimizer_kwargs := args.optimizer_kwargs,
                    scheduler := args.scheduler,
                    scheduler_kwargs := args.scheduler_kwargs,
                    learning_rate := args.learning_rate },
                 [overrideWarning], 1⟩

/-- ImageEmbedder.on_train_start: pure forwarding to the adapter. -/
def ImageEmbedder.on_train_start (t : ImageEmbedder) : ImageEmbedder :=
  { t with adapter := t.adapter.on_train_start }

/-- ImageEmbedder.on_train_epoch_end: pure forwarding to the adapter. -/
def ImageEmbedder.on_train_epoch_end (t : ImageEmbedder) : ImageEmbedder :=
  { t with adapter := t.adapter.on_train_epoch_end }

/-- ImageEmbedder.on_train_batch_end: pure forwarding to the adapter with
the arguments passed unchanged. -/
def ImageEmbedder.on_train_batch_end (t : ImageEmbedder)
    (outputs batch : Val) (batch_idx dataloader_idx : Nat) : ImageEmbedder :=
  { t with adapter :=
      t.adapter.on_train_batch_end outputs batch batch_idx dataloader_idx }

/-- ImageEmbedder.available_training_strategies: reads the class attribute
defensively (getattr with a None default) and returns the empty list when
the registry is absent. -/
def ImageEmbedder.available_training_strategies
    (registry : Option (FlashRegistry StrategyFactory StrategyMeta)) :
    List String :=
  match registry with
  | none => []
  | some r => r.available_keys

/-- A registry built by a sequence of register calls starting from the
empty registry. -/
def buildRegistry (nm : String) (regs : List (String × φ × μ)) :
    FlashRegistry φ μ :=
  regs.foldl (fun r e => r.register e.1 e.2.1 e.2.2) (.empty nm)

/-- Insertion-order accumulation of keys: a key is appended the first
time it is seen and ignored afterwards. -/
def insertKey (acc : List String) (n : String) : List String :=
  if n ∈ acc then acc else acc ++ [n]

/-- The registered keys in insertion order, each key listed once at its
first registration. -/
def keysInOrder (names : List String) : List String :=
  names.foldl insertKey []

/-- Concrete factories for a sample environment, mirroring the end-to-end
test scenario of the spec: a dummy backbone, a strategy returning a loss
function, the requested head and hooks, and a transform factory returning
a transform and a collate function. -/
def sampleBackboneFactory : BackboneFactory := fun pretrained _ =>
  .ok (.pair (.str "resnet_backbone")
        (.str (if pretrained then "pretrained" else "fresh")),
      .nat 2048)

def sampleStrategyFactory : StrategyFactory := fun head _ =>
  .ok (.str "simclr_loss", .str head, .str "simclr_hooks")

def sampleTransformFactory : TransformFactory := fun _ =>
  .ok (.str "simclr_transform_obj", .str "simclr_collate")

def sampleEnv : Env :=
  { backbones := ⟨"backbones", [⟨"resnet", sampleBackboneFactory, ()⟩]⟩,
    training_strategies := ⟨"embedder_training_strategies",
      [⟨"simclr", sampleStrategyFactory, ⟨"VISSLAdapter"⟩⟩]⟩,
    transforms := ⟨"embedder_transforms",
      [⟨"simclr_transform", sampleTransformFactory, ()⟩]⟩,
    selfId := 7,
    initStates := ⟨some (some (.str "old_collate")),
      some (some ⟨[DataKey.target], .str "old_to_tensor"⟩),
      some (some (.str "old_pre")), some (some (.str "old_post"))⟩,
    user_transform := some (.str "user_configured_transform") }

/-- The sample environment with no user-configured transform. -/
def sampleEnvNoCustom : Env := { sampleEnv with user_transform := none }

/-- Constructor arguments naming only registered keys and leaving every
other parameter at its default. -/
def sampleArgsDefault : ConstructArgs :=
  { training_strategy := "simclr", head := "simclr_head",
    pretraining_transform := "simclr_transform" }

/-- The same arguments with the transform kwargs explicitly given as an
empty mapping instead of the default None. -/
def sampleArgsOk : ConstructArgs :=
  { sampleArgsDefault with pretraining_transform_kwargs := some [] }

/-- Constructor arguments naming keys that are absent from every sample
registry. -/
def sampleArgsUnknown : ConstructArgs :=
  { training_strategy := "swav", head := "swav_head",
    pretraining_transform := "swav_transform", backbone := "vit",
    pretraining_transform_kwargs := some [] }

/-- The task produced by constructing in the sample environment with
sampleArgsOk. -/
def sampleAdapter : Adapter :=
  { cls := "VISSLAdapter", task := 7,
    loss_fn := .str "simclr_loss",
    backbone := .pair (.str "resnet_backbone") (.str "fresh"),
    head := .str "simclr_head", hooks := .str "simclr_hooks",
    states := ⟨some (some (.str "simclr_collate")),
      some (some ⟨[DataKey.input], .str "simclr_transform_obj"⟩),
      some none, some none⟩,
    callLog := ⟨0, 0, []⟩ }

def sampleTask : ImageEmbedder :=
  { id := 7, hparams := sampleArgsOk, adapter := sampleAdapter,
    optimizer := .str "torch.optim.SGD", optimizer_kwargs := none,
    scheduler := none, scheduler_kwargs := none,
    learning_rate := .str "1e-3" }

/-- A backbone factory that raises. -/
def failingBackboneFactory : BackboneFactory := fun _ _ =>
  .error (.factoryError "backbone factory failed")

/-- A strategy factory that raises. -/
def failingStrategyFactory : StrategyFactory := fun _ _ =>
  .error (.factoryError "strategy factory failed")

/-- A transform factory that raises. -/
def failingTransformFactory : TransformFactory := fun _ =>
  .error (.factoryError "transform factory failed")

/-- The sample environment with a raising backbone factory registered
under the default backbone key. -/
def failEnvBackbone : Env :=
  { sampleEnv with backbones :=
      ⟨"backbones", [⟨"resnet", failingBackboneFactory, ()⟩]⟩ }

/-- The sample environment with a raising strategy factory. -/
def failEnvStrategy : Env :=
  { sampleEnv with training_strategies :=
      ⟨"embedder_training_strategies",
        [⟨"simclr", failingStrategyFactory, ⟨"VISSLAdapter"⟩⟩]⟩ }

/-- The sample environment with a raising transform factory. -/
def failEnvTransform : Env :=
  { sampleEnv with transforms :=
      ⟨"embedder_transforms",
        [⟨"simclr_transform", failingTransformFactory, ()⟩]⟩ }

theorem get_of_not_mem_available_keys {φ μ : Type}
    (r : FlashRegistry φ μ) (key : String)
    (h : key ∉ r.available_keys) :
    r.get key = .error (.keyError r.name key) := by
  unfold FlashRegistry.get
  have hfind : r.functions.find? (fun e => e.name == key) = none := by
    rw [List.find?_eq_none]
    intro e he
    simp only [beq_iff_eq]
    intro hname
    exact h (hname ▸ List.mem_map_of_mem (fun e => e.name) he)
  rw [hfind]

theorem get_ok_mem_available_keys {φ μ : Type}
    (r : FlashRegistry φ μ) (key : String) (e : RegistryEntry φ μ)
    (h : r.get key = .ok e) : key ∈ r.available_keys := by
  by_contra hmem
  rw [get_of_not_mem_available_keys r key hmem] at h
  exact Except.noConfusion h

theorem available_keys_register {φ μ : Type}
    (r : FlashRegistry φ μ) (n : String) (f : φ) (m : μ) :
    (r.register n f m).available_keys = insertKey r.available_keys n := by
  unfold FlashRegistry.register insertKey FlashRegistry.available_keys
  by_cases h : n ∈ r.functions.map (fun e => e.name)
  · have hany : r.functions.any (fun e => e.name == n) = true := by
      rw [List.any_eq_true]
      obtain ⟨e, he, hn⟩ := List.mem_map.mp h
      exact ⟨e, he, by simp [hn]⟩
    simp only [hany, if_true, h, if_pos]
    rw [List.map_map]
    refine List.map_congr_left fun e _ => ?_
    by_cases he : e.name = n <;> simp [Function.comp, he]
  · have hany : r.functions.any (fun e => e.name == n) = false := by
      rw [List.any_eq_false]
      intro e he
      simp only [beq_iff_eq]
      intro hn
      exact h (hn ▸ List.mem_map_of_mem (fun e => e.name) he)
    simp [hany, h]

theorem foldl_register_available_keys {φ μ : Type}
    (regs : List (String × φ × μ)) (r : FlashRegistry φ μ) :
    (regs.foldl (fun r e => r.register e.1 e.2.1 e.2.2) r).available_keys =
      (regs.map (fun e => e.1)).foldl insertKey r.available_keys := by
  induction regs generalizing r with
  | nil => rfl
  | cons hd tl ih =>
      simp only [List.foldl_cons, List.map_cons]
      rw [ih, available_keys_register]

theorem mem_foldl_insertKey (names : List String) (acc : List String)
    (k : String) :
    k ∈ names.foldl insertKey acc ↔ k ∈ acc ∨ k ∈ names := by
  induction names generalizing acc with
  | nil => simp
  | cons hd tl ih =>
      simp only [List.foldl_cons, ih, insertKey]
      by_cases h : hd ∈ acc
      · simp only [h, if_true, List.mem_cons]
        constructor
        · rintro (hk | hk)
          · exact Or.inl hk
          · exact Or.inr (Or.inr hk)
        · rintro (hk | hk | hk)
          · exact Or.inl hk
          · exact Or.inl (hk ▸ h)
          · exact Or.inr hk
      · simp only [h, if_false, List.mem_append, List.mem_singleton,
          List.mem_cons]
        tauto

theorem nodup_foldl_insertKey (names : List String) (acc : List String)
    (h : acc.Nodup) : (names.foldl insertKey acc).Nodup := by
  induction names generalizing acc with
  | nil => exact h
  | cons hd tl ih =>
      simp only [List.foldl_cons]
      refine ih _ ?_
      unfold insertKey
      by_cases hmem : hd ∈ acc
      · simpa [hmem] using h
      · simp only [hmem, if_false]
        rw [List.nodup_append]
        exact ⟨h, List.nodup_singleton hd, by simpa using hmem⟩

/-- C8: for every registry built by a sequence of registrations, listing
its available keys (as exposed by
ImageEmbedder.available_training_strategies for the strategy registry)
returns exactly the set of registered keys, with no duplicate entries, in
insertion order. -/
theorem available_keys_exact_nodup_insertion_order {φ μ : Type}
    (nm : String) (regs : List (String × φ × μ)) :
    (buildRegistry nm regs).available_keys =
        keysInOrder (regs.map (fun e => e.1)) ∧
    (buildRegistry nm regs).available_keys.Nodup ∧
    (∀ k, k ∈ (buildRegistry nm regs).available_keys ↔
        k ∈ regs.map (fun e => e.1)) ∧
    (∀ r : FlashRegistry StrategyFactory StrategyMeta,
      ImageEmbedder.available_training_strategies (some r) =
        r.available_keys) := by
  have hkeys : (buildRegistry nm regs).available_keys =
      keysInOrder (regs.map (fun e => e.1)) := by
    unfold buildRegistry keysInOrder
    rw [foldl_register_available_keys]
    rfl
  refine ⟨hkeys, ?_, ?_, fun r => rfl⟩
  · rw [hkeys]
    exact nodup_foldl_insertKey _ [] List.nodup_nil
  · intro k
    rw [hkeys]
    unfold keysInOrder
    rw [mem_foldl_insertKey]
    simp

/-- C10: ImageEmbedder.available_training_strategies is total: absent
(None) registry attribute yields the empty list, and a present registry
yields its available keys. -/
theorem available_training_strategies_total :
    ImageEmbedder.available_training_strategies none = ([] : List String) ∧
    ∀ r : FlashRegistry StrategyFactory StrategyMeta,
      ImageEmbedder.available_training_strategies (some r) =
        r.available_keys :=
  ⟨rfl, fun _ => rfl⟩

/-- C3: each lifecycle callback of the task forwards to the identically
named adapter method exactly once with the arguments unchanged and changes
no other state of the task: the result is the original task with exactly
one matching call appended to the adapter call log. -/
theorem lifecycle_callbacks_forward_to_adapter (t : ImageEmbedder)
    (outputs batch : Val) (batch_idx dataloader_idx : Nat) :
    t.on_train_start = { t with adapter := { t.adapter with callLog :=
        { t.adapter.callLog with
            train_start := t.adapter.callLog.train_start + 1 } } } ∧
    t.on_train_epoch_end = { t with adapter := { t.adapter with callLog :=
        { t.adapter.callLog with
            train_epoch_end := t.adapter.callLog.train_epoch_end + 1 } } } ∧
    t.on_train_batch_end outputs batch batch_idx dataloader_idx =
      { t with adapter := { t.adapter with callLog :=
          { t.adapter.callLog with
              train_batch_end := t.adapter.callLog.train_batch_end ++
                [⟨outputs, batch, batch_idx, dataloader_idx⟩] } } } :=
  ⟨rfl, rfl, rfl⟩

/-- C1: with every selector key registered and all other parameters left
at their defaults, construction does NOT succeed: the default None
pretraining_transform_kwargs is unpacked with ** and raises a TypeError.
The same call with an explicit empty kwargs mapping succeeds and the
adapter holds the produced loss function, backbone, head and hooks, which
isolates the defaulting of pretraining_transform_kwargs as the failing
step. -/
theorem construction_with_default_transform_kwargs_raises :
    sampleArgsDefault.backbone ∈ sampleEnv.backbones.available_keys ∧
    sampleArgsDefault.training_strategy ∈
      sampleEnv.training_strategies.available_keys ∧
    sampleArgsDefault.pretraining_transform ∈
      sampleEnv.transforms.available_keys ∧
    (ImageEmbedder.construct sampleEnv sampleArgsDefault).result =
      .error (.typeError
        "argument after ** must be a mapping, not NoneType") ∧
    (∃ task, (ImageEmbedder.construct sampleEnv sampleArgsOk).result =
        .ok task ∧
      task.adapter.loss_fn = .str "simclr_loss" ∧
      task.adapter.backbone =
        .pair (.str "resnet_backbone") (.str "fresh") ∧
      task.adapter.head = .str "simclr_head" ∧
      task.adapter.hooks = .str "simclr_hooks") := by
  refine ⟨?_, ?_, ?_, ?_, ?_⟩
  · decide
  · decide
  · decide
  · rfl
  · exact ⟨_, rfl, rfl, rfl, rfl, rfl⟩

theorem construct_ok_elim (env : Env) (args : ConstructArgs)
    (task : ImageEmbedder)
    (h : (ImageEmbedder.construct env args).result = .ok task) :
    ∃ be bb bx se lf hd hk te tk tr cf,
      env.backbones.get args.backbone = .ok be ∧
      be.fn args.pretrained (args.backbone_kwargs.getD []) = .ok (bb, bx) ∧
      env.training_strategies.get args.training_strategy = .ok se ∧
      se.fn args.head (args.training_strategy_kwargs.getD []) =
        .ok (lf, hd, hk) ∧
      env.transforms.get args.pretraining_transform = .ok te ∧
      args.pretraining_transform_kwargs = some tk ∧
      te.fn tk = .ok (tr, cf) ∧
      ImageEmbedder.construct env args =
        ⟨.ok task, [overrideWarning], 1⟩ ∧
      task =
        { id := env.selfId, hparams := args,
          adapter :=
            { cls := se.metadata.adapter, task := env.selfId,
              loss_fn := lf, backbone := bb, head := hd, hooks := hk,
              states := ⟨some (some cf),
                some (some ⟨[DataKey.input], tr⟩), some none, some none⟩,
              callLog := ⟨0, 0, []⟩ },
          optimizer := args.optimizer,
          optimizer_kwargs := args.optimizer_kwargs,
          scheduler := args.scheduler,
          scheduler_kwargs := args.scheduler_kwargs,
          learning_rate := args.learning_rate } := by
  cases hb : env.backbones.get args.backbone with
  | error e => simp [ImageEmbedder.construct, hb] at h
  | ok be =>
  cases hbf : be.fn args.pretrained (args.backbone_kwargs.getD []) with
  | error e => simp [ImageEmbedder.construct, hb, hbf] at h
  | ok bp =>
  obtain ⟨bb, bx⟩ := bp
  cases hs : env.training_strategies.get args.training_strategy with
  | error e => simp [ImageEmbedder.construct, hb, hbf, hs] at h
  | ok se =>
  cases hsf : se.fn args.head (args.training_strategy_kwargs.getD []) with
  | error e => simp [ImageEmbedder.construct, hb, hbf, hs, hsf] at h
  | ok sp =>
  obtain ⟨lf, hd, hk⟩ := sp
  cases ht : env.transforms.get args.pretraining_transform with
  | error e => simp [ImageEmbedder.construct, hb, hbf, hs, hsf, ht] at h
  | ok te =>
  cases htk : args.pretraining_transform_kwargs with
  | none => simp [ImageEmbedder.construct, hb, hbf, hs, hsf, ht, htk] at h
  | some tk =>
  cases htf : te.fn tk with
  | error e =>
      simp [ImageEmbedder.construct, hb, hbf, hs, hsf, ht, htk, htf] at h
  | ok tp =>
  obtain ⟨tr, cf⟩ := tp
  have hc : ImageEmbedder.construct env args =
      ⟨.ok
        { id := env.selfId, hparams := args,
          adapter :=
            { cls := se.metadata.adapter, task := env.selfId,
              loss_fn := lf, backbone := bb, head := hd, hooks := hk,
              states := ⟨some (some cf),
                some (some ⟨[DataKey.input], tr⟩), some none, some none⟩,
              callLog := ⟨0, 0, []⟩ },
          optimizer := args.optimizer,
          optimizer_kwargs := args.optimizer_kwargs,
          scheduler := args.scheduler,
          scheduler_kwargs := args.scheduler_kwargs,
          learning_rate := args.learning_rate },
        [overrideWarning], 1⟩ := by
    simp [ImageEmbedder.construct, hb, hbf, hs, hsf, ht, htk, htf,
      Adapter.from_task, Adapter.set_state]
  rw [hc] at h
  simp only [Except.ok.injEq] at h
  subst h
  exact ⟨be, bb, bx, se, lf, hd, hk, te, tk, tr, cf, rfl, hbf, rfl, hsf,
    rfl, rfl, htf, hc, rfl⟩

/-- C2: for any key not present in a registry, lookup fails with the
LookupError-kind KeyError naming the registry and the key, and
ImageEmbedder construction fails for that key, whichever of the three
roles (backbone, training strategy, pretraining transform) it is used
in. -/
theorem unknown_registry_key_fails_lookup_and_construction
    (env : Env) (args : ConstructArgs) :
    (args.backbone ∉ env.backbones.available_keys →
      env.backbones.get args.backbone =
        .error (.keyError env.backbones.name args.backbone) ∧
      ∃ e, (ImageEmbedder.construct env args).result = .error e) ∧
    (args.training_strategy ∉ env.training_strategies.available_keys →
      env.training_strategies.get args.training_strategy =
        .error (.keyError env.training_strategies.name
          args.training_strategy) ∧
      ∃ e, (ImageEmbedder.construct env args).result = .error e) ∧
    (args.pretraining_transform ∉ env.transforms.available_keys →
      env.transforms.get args.pretraining_transform =
        .error (.keyError env.transforms.name args.pretraining_transform) ∧
      ∃ e, (ImageEmbedder.construct env args).result = .error e) := by
  have hfail : ∀ P : Prop,
      (∀ task, (ImageEmbedder.construct env args).result = .ok task → P) →
      ¬ P → ∃ e, (ImageEmbedder.construct env args).result = .error e := by
    intro P hok hnp
    cases hres : (ImageEmbedder.construct env args).result with
    | error e => exact ⟨e, rfl⟩
    | ok task => exact absurd (hok task hres) hnp
  refine ⟨fun hm => ⟨get_of_not_mem_available_keys _ _ hm, ?_⟩,
    fun hm => ⟨get_of_not_mem_available_keys _ _ hm, ?_⟩,
    fun hm => ⟨get_of_not_mem_available_keys _ _ hm, ?_⟩⟩
  · refine hfail (args.backbone ∈ env.backbones.available_keys) ?_ hm
    intro task hres
    obtain ⟨be, _, _, _, _, _, _, _, _, _, _, hb, _⟩ :=
      construct_ok_elim env args task hres
    exact get_ok_mem_available_keys _ _ be hb
  · refine hfail (args.training_strategy ∈
      env.training_strategies.available_keys) ?_ hm
    intro task hres
    obtain ⟨_, _, _, se, _, _, _, _, _, _, _, _, _, hs, _⟩ :=
      construct_ok_elim env args task hres
    exact get_ok_mem_available_keys _ _ se hs
  · refine hfail (args.pretraining_transform ∈
      env.transforms.available_keys) ?_ hm
    intro task hres
    obtain ⟨_, _, _, _, _, _, _, te, _, _, _, _, _, _, _, ht, _⟩ :=
      construct_ok_elim env args task hres
    exact get_ok_mem_available_keys _ _ te ht

/-- Witness for C2 at concrete absent keys in the sample environment. -/
theorem unknown_registry_key_witness :
    (sampleEnv.backbones.get sampleArgsUnknown.backbone =
        .error (.keyError sampleEnv.backbones.name
          sampleArgsUnknown.backbone) ∧
      ∃ e, (ImageEmbedder.construct sampleEnv sampleArgsUnknown).result =
        .error e) ∧
    (sampleEnv.training_strategies.get
        sampleArgsUnknown.training_strategy =
        .error (.keyError sampleEnv.training_strategies.name
          sampleArgsUnknown.training_strategy) ∧
      ∃ e, (ImageEmbedder.construct sampleEnv sampleArgsUnknown).result =
        .error e) ∧
    (sampleEnv.transforms.get sampleArgsUnknown.pretraining_transform =
        .error (.keyError sampleEnv.transforms.name
          sampleArgsUnknown.pretraining_transform) ∧
      ∃ e, (ImageEmbedder.construct sampleEnv sampleArgsUnknown).result =
        .error e) :=
  ⟨(unknown_registry_key_fails_lookup_and_construction sampleEnv
      sampleArgsUnknown).1 (by decide),
   (unknown_registry_key_fails_lookup_and_construction sampleEnv
      sampleArgsUnknown).2.1 (by decide),
   (unknown_registry_key_fails_lookup_and_construction sampleEnv
      sampleArgsUnknown).2.2 (by decide)⟩

/-- C4: after a successful construction the adapter holds, as its named
states, the collate function returned by the resolved transform factory,
the returned transform applied to the input key, and cleared (None
valued) pre- and post-tensor transform states, regardless of the
pre-existing state values. -/
theorem transform_states_installed_on_adapter
    (env : Env) (args : ConstructArgs) (task : ImageEmbedder)
    (te : RegistryEntry TransformFactory Unit) (tk : Kwargs) (tr cf : Val)
    (ht : env.transforms.get args.pretraining_transform = .ok te)
    (htk : args.pretraining_transform_kwargs = some tk)
    (htf : te.fn tk = .ok (tr, cf))
    (h : (ImageEmbedder.construct env args).result = .ok task) :
    task.adapter.states =
      ⟨some (some cf), some (some ⟨[DataKey.input], tr⟩),
        some none, some none⟩ := by
  obtain ⟨_, _, _, _, _, _, _, te2, tk2, tr2, cf2, _, _, _, _, ht2, htk2,
    htf2, _, htask⟩ := construct_ok_elim env args task h
  rw [ht] at ht2
  injection ht2 with hte
  subst hte
  rw [htk] at htk2
  injection htk2 with htke
  subst htke
  rw [htf] at htf2
  injection htf2 with htfe
  obtain ⟨htr, hcf⟩ := Prod.mk.injEq .. ▸ htfe
  subst htr
  subst hcf
  subst htask
  rfl

/-- Witness for C4 in the sample environment, where the pre-existing
states hold stale values that get overwritten. -/
theorem transform_states_installed_witness :
    sampleTask.adapter.states =
      ⟨some (some (.str "simclr_collate")),
        some (some ⟨[DataKey.input], .str "simclr_transform_obj"⟩),
        some none, some none⟩ :=
  transform_states_installed_on_adapter sampleEnv sampleArgsOk sampleTask
    ⟨"simclr_transform", sampleTransformFactory, ()⟩ []
    (.str "simclr_transform_obj") (.str "simclr_collate") rfl rfl rfl rfl

/-- C5: a construction performed while the user has a custom transform
configured emits the transform-override warning exactly once. -/
theorem custom_transform_construction_warns_once
    (env : Env) (args : ConstructArgs) (task : ImageEmbedder) (ut : Val)
    (_hu : env.user_transform = some ut)
    (h : (ImageEmbedder.construct env args).result = .ok task) :
    (ImageEmbedder.construct env args).warnings_emitted =
      [overrideWarning] := by
  obtain ⟨_, _, _, _, _, _, _, _, _, _, _, _, _, _, _, _, _, _, hc, _⟩ :=
    construct_ok_elim env args task h
  rw [hc]

/-- Witness for C5 in the sample environment, whose user transform is
configured. -/
theorem custom_transform_warns_once_witness :
    (ImageEmbedder.construct sampleEnv sampleArgsOk).warnings_emitted =
      [overrideWarning] :=
  custom_transform_construction_warns_once sampleEnv sampleArgsOk
    sampleTask (.str "user_configured_transform") rfl rfl

/-- C9: the transform-override warning is emitted on every successful
construction, unconditionally, whether or not a custom transform was
configured. -/
theorem override_warning_unconditional
    (env : Env) (args : ConstructArgs) (task : ImageEmbedder)
    (h : (ImageEmbedder.construct env args).result = .ok task) :
    (ImageEmbedder.construct env args).warnings_emitted =
      [overrideWarning] := by
  obtain ⟨_, _, _, _, _, _, _, _, _, _, _, _, _, _, _, _, _, _, hc, _⟩ :=
    construct_ok_elim env args task h
  rw [hc]

/-- Witness for C9 in the sample environment with no user transform
configured at all. -/
theorem override_warning_unconditional_witness :
    (ImageEmbedder.construct sampleEnvNoCustom
      sampleArgsOk).warnings_emitted = [overrideWarning] :=
  override_warning_unconditional sampleEnvNoCustom sampleArgsOk
    sampleTask rfl

/-- C6: during a successful construction the adapter class is the one
named by the strategy metadata, the adapter is instantiated exactly once,
bound to the task itself and to the loss function, backbone, head and
hooks produced by the factories, it equals the from_task instance up to
the states subsequently set on it, and every lifecycle callback leaves
the installed adapter unchanged except for its call log. -/
theorem adapter_resolved_once_and_installed
    (env : Env) (args : ConstructArgs) (task : ImageEmbedder)
    (be : RegistryEntry BackboneFactory Unit) (bb bx : Val)
    (se : RegistryEntry StrategyFactory StrategyMeta) (lf hd hk : Val)
    (hb : env.backbones.get args.backbone = .ok be)
    (hbf : be.fn args.pretrained (args.backbone_kwargs.getD []) =
      .ok (bb, bx))
    (hs : env.training_strategies.get args.training_strategy = .ok se)
    (hsf : se.fn args.head (args.training_strategy_kwargs.getD []) =
      .ok (lf, hd, hk))
    (h : (ImageEmbedder.construct env args).result = .ok task) :
    (ImageEmbedder.construct env args).adapter_instantiations = 1 ∧
    task.id = env.selfId ∧
    task.adapter.cls = se.metadata.adapter ∧
    task.adapter.task = env.selfId ∧
    task.adapter.loss_fn = lf ∧
    task.adapter.backbone = bb ∧
    task.adapter.head = hd ∧
    task.adapter.hooks = hk ∧
    task.adapter =
      { Adapter.from_task se.metadata.adapter env.selfId lf bb hd hk
          env.initStates with states := task.adapter.states } ∧
    (∀ o b i d,
      { task.on_train_start.adapter with
          callLog := task.adapter.callLog } = task.adapter ∧
      { task.on_train_epoch_end.adapter with
          callLog := task.adapter.callLog } = task.adapter ∧
      { (task.on_train_batch_end o b i d).adapter with
          callLog := task.adapter.callLog } = task.adapter) := by
  obtain ⟨be2, bb2, bx2, se2, lf2, hd2, hk2, _, _, _, _, hb2, hbf2, hs2,
    hsf2, _, _, _, hc, htask⟩ := construct_ok_elim env args task h
  rw [hb] at hb2
  injection hb2 with hbe
  subst hbe
  rw [hbf] at hbf2
  injection hbf2 with hbfe
  obtain ⟨hbb, hbx⟩ := Prod.mk.injEq .. ▸ hbfe
  subst hbb
  rw [hs] at hs2
  injection hs2 with hse
  subst hse
  rw [hsf] at hsf2
  injection hsf2 with hsfe
  obtain ⟨hlf, hrest⟩ := Prod.mk.injEq .. ▸ hsfe
  obtain ⟨hhd, hhk⟩ := Prod.mk.injEq .. ▸ hrest
  subst hlf
  subst hhd
  subst hhk
  subst htask
  rw [hc]
  exact ⟨rfl, rfl, rfl, rfl, rfl, rfl, rfl, rfl, rfl,
    fun o b i d => ⟨rfl, rfl, rfl⟩⟩

/-- Witness for C6 in the sample environment. -/
theorem adapter_resolved_once_witness :
    (ImageEmbedder.construct sampleEnv
      sampleArgsOk).adapter_instantiations = 1 ∧
    sampleTask.id = sampleEnv.selfId ∧
    sampleTask.adapter.cls = "VISSLAdapter" ∧
    sampleTask.adapter.task = sampleEnv.selfId ∧
    sampleTask.adapter.loss_fn = .str "simclr_loss" ∧
    sampleTask.adapter.backbone =
      .pair (.str "resnet_backbone") (.str "fresh") ∧
    sampleTask.adapter.head = .str "simclr_head" ∧
    sampleTask.adapter.hooks = .str "simclr_hooks" ∧
    sampleTask.adapter =
      { Adapter.from_task "VISSLAdapter" sampleEnv.selfId
          (.str "simclr_loss")
          (.pair (.str "resnet_backbone") (.str "fresh"))
          (.str "simclr_head") (.str "simclr_hooks")
          sampleEnv.initStates with
        states := sampleTask.adapter.states } ∧
    (∀ o b i d,
      { sampleTask.on_train_start.adapter with
          callLog := sampleTask.adapter.callLog } = sampleTask.adapter ∧
      { sampleTask.on_train_epoch_end.adapter with
          callLog := sampleTask.adapter.callLog } = sampleTask.adapter ∧
      { (sampleTask.on_train_batch_end o b i d).adapter with
          callLog := sampleTask.adapter.callLog } = sampleTask.adapter) :=
  adapter_resolved_once_and_installed sampleEnv sampleArgsOk sampleTask
    ⟨"resnet", sampleBackboneFactory, ()⟩
    (.pair (.str "resnet_backbone") (.str "fresh")) (.nat 2048)
    ⟨"simclr", sampleStrategyFactory, ⟨"VISSLAdapter"⟩⟩
    (.str "simclr_loss") (.str "simclr_head") (.str "simclr_hooks")
    rfl rfl rfl rfl rfl

/-- C7: an error raised by any invoked factory aborts construction and is
returned to the caller unmodified, with no warning emitted and no
partially constructed task: the whole outcome is exactly the factory
error. -/
theorem factory_errors_propagate_unmodified
    (env : Env) (args : ConstructArgs) :
    (∀ (be : RegistryEntry BackboneFactory Unit) (e : FlashError),
      env.backbones.get args.backbone = .ok be →
      be.fn args.pretrained (args.backbone_kwargs.getD []) = .error e →
      ImageEmbedder.construct env args = ⟨.error e, [], 0⟩) ∧
    (∀ (be : RegistryEntry BackboneFactory Unit) (bb bx : Val)
        (se : RegistryEntry StrategyFactory StrategyMeta) (e : FlashError),
      env.backbones.get args.backbone = .ok be →
      be.fn args.pretrained (args.backbone_kwargs.getD []) = .ok (bb, bx) →
      env.training_strategies.get args.training_strategy = .ok se →
      se.fn args.head (args.training_strategy_kwargs.getD []) =
        .error e →
      ImageEmbedder.construct env args = ⟨.error e, [], 0⟩) ∧
    (∀ (be : RegistryEntry BackboneFactory Unit) (bb bx : Val)
        (se : RegistryEntry StrategyFactory StrategyMeta) (lf hd hk : Val)
        (te : RegistryEntry TransformFactory Unit) (tk : Kwargs)
        (e : FlashError),
      env.backbones.get args.backbone = .ok be →
      be.fn args.pretrained (args.backbone_kwargs.getD []) = .ok (bb, bx) →
      env.training_strategies.get args.training_strategy = .ok se →
      se.fn args.head (args.training_strategy_kwargs.getD []) =
        .ok (lf, hd, hk) →
      env.transforms.get args.pretraining_transform = .ok te →
      args.pretraining_transform_kwargs = some tk →
      te.fn tk = .error e →
      ImageEmbedder.construct env args = ⟨.error e, [], 1⟩) := by
  refine ⟨?_, ?_, ?_⟩
  · intro be e hb hbf
    simp [ImageEmbedder.construct, hb, hbf]
  · intro be bb bx se e hb hbf hs hsf
    simp [ImageEmbedder.construct, hb, hbf, hs, hsf]
  · intro be bb bx se lf hd hk te tk e hb hbf hs hsf ht htk htf
    simp [ImageEmbedder.construct, hb, hbf, hs, hsf, ht, htk, htf]

/-- Witness for C7: raising factories in each of the three roles abort
construction with exactly the raised error. -/
theorem factory_errors_propagate_witness :
    ImageEmbedder.construct failEnvBackbone sampleArgsOk =
      ⟨.error (.factoryError "backbone factory failed"), [], 0⟩ ∧
    ImageEmbedder.construct failEnvStrategy sampleArgsOk =
      ⟨.error (.factoryError "strategy factory failed"), [], 0⟩ ∧
    ImageEmbedder.construct failEnvTransform sampleArgsOk =
      ⟨.error (.factoryError "transform factory failed"), [], 1⟩ :=
  ⟨(factory_errors_propagate_unmodified failEnvBackbone sampleArgsOk).1
      ⟨"resnet", failingBackboneFactory, ()⟩ _ rfl rfl,
   (factory_errors_propagate_unmodified failEnvStrategy sampleArgsOk).2.1
      ⟨"resnet", sampleBackboneFactory, ()⟩
      (.pair (.str "resnet_backbone") (.str "fresh")) (.nat 2048)
      ⟨"simclr", failingStrategyFactory, ⟨"VISSLAdapter"⟩⟩ _
      rfl rfl rfl rfl,
   (factory_errors_propagate_unmodified failEnvTransform sampleArgsOk).2.2
      ⟨"resnet", sampleBackboneFactory, ()⟩
      (.pair (.str "resnet_backbone") (.str "fresh")) (.nat 2048)
      ⟨"simclr", sampleStrategyFactory, ⟨"VISSLAdapter"⟩⟩
      (.str "simclr_loss") (.str "simclr_head") (.str "simclr_hooks")
      ⟨"simclr_transform", failingTransformFactory, ()⟩ [] _
      rfl rfl rfl rfl rfl rfl rfl⟩

end Flash
